import Mathlib

/-!
# Verification of the sharepoint-salsify-integration polling core

Shallow embedding of the polling orchestration engine of the
`sharepoint_salsify_integration` repository:

* `src/main.py` (`run_daemon`): the scheduler loop, the inline circuit
  breaker (`failure_count` / `circuit_open_until`), the fan-in over
  completed futures, and the dead-letter writes;
* `src/processors/file_processor.py` (`FileProcessor`): the idempotency
  ledger, filename validation and decomposition, and the per-item
  transfer pipeline `process_file`;
* `src/auth/azure_auth.py` (`AzureAuthenticator.get_access_token`): the
  token cache with proactive refresh.

Python epoch-second floats are modelled as `Int` (only ordering and
addition matter to the control flow); machine-level exceptions are
modelled with `Except String`; the external collaborators (MSAL, the two
HTTP connectors, the filesystem) are modelled as explicit environments
carrying the result each call would produce.
-/

/-! ## Python `pathlib.PurePath` stem/suffix and string helpers

`Path(name).stem` / `Path(name).suffix` for a final path component:
with `i` the index of the last `'.'`, if `0 < i < len - 1` then the
suffix is `name[i:]` and the stem `name[:i]`, otherwise the suffix is
empty and the stem the whole name.  Item names coming from the remote
listing contain no path separators, so the final component is the whole
string. -/

deriving instance DecidableEq for Except

/-- Index of the last `'.'` in the character list, if any. -/
def lastDotIdx (cs : List Char) : Option Nat :=
  match cs.reverse.findIdx? (· = '.') with
  | none => none
  | some j => some (cs.length - 1 - j)

/-- `pathlib` stem and suffix of a single path component. -/
def pyStemSuffix (s : String) : String × String :=
  let cs := s.toList
  let n := cs.length
  match lastDotIdx cs with
  | none => (s, "")
  | some i =>
      if 0 < i ∧ i < n - 1 then (String.mk (cs.take i), String.mk (cs.drop i))
      else (s, "")

/-- `Path(s).stem`. -/
def pyStem (s : String) : String := (pyStemSuffix s).1

/-- `Path(s).suffix`. -/
def pySuffix (s : String) : String := (pyStemSuffix s).2

/-- Python `str.lower` (ASCII names). -/
def lowerStr (s : String) : String := String.mk (s.toList.map Char.toLower)

/-- Python `str.split(sep)` for a one-character separator, on the
character list: `"".split("_") = [""]`, `"a__b".split("_") = ["a", "", "b"]`. -/
def splitCharAux (c : Char) : List Char → List (List Char)
  | [] => [[]]
  | x :: xs =>
      match splitCharAux c xs with
      | [] => [[]]
      | g :: gs => if x = c then [] :: g :: gs else (x :: g) :: gs

/-- Python `s.split(c)` for a one-character separator `c`. -/
def pySplit (c : Char) (s : String) : List String :=
  (splitCharAux c s.toList).map String.mk

/-- Python's `a or b` for an optional string `a` (empty string is falsy),
as used in `result.get("id") or result.get("asset_id") or ""`. -/
def pyOr (a : Option String) (b : String) : String :=
  match a with
  | some s => if s = "" then b else s
  | none => b

/-! ## FileProcessor (src/processors/file_processor.py) -/

/-- A SharePoint drive item as consumed by `process_file`:
`item["id"]` is required, `item.get("name", ...)` may be absent. -/
structure Item where
  id : String
  name : Option String
deriving Repr, DecidableEq

/-- `name = item.get("name", item_id)` (file_processor.py line 63). -/
def effName (it : Item) : String := it.name.getD it.id

/-- The dict returned by `process_file` on its non-raising paths:
`{"status": "success", ...}` or `{"status": "skipped", ...}`.
There is no returned "failed" dict anywhere in the source: failures
leave `process_file` as raised exceptions. -/
inductive Outcome where
  | success (assetId : String) (productCode : String) (name : String)
  | skipped (reason : String) (name : String)
deriving Repr, DecidableEq

/-- JSON body of a successful `upload_asset` response, as read by
`result.get("id") or result.get("asset_id") or ""`. -/
structure UploadResult where
  id : Option String
  assetId : Option String
deriving Repr, DecidableEq

/-- Results the two collaborator calls of one `process_file` invocation
would produce: `download_file_stream` (stream contents irrelevant to
control flow) and `upload_asset`.  `.error` is a raised exception. -/
structure StepEnv where
  download : Except String Unit
  upload : Except String UploadResult
deriving Repr, DecidableEq

/-- `FileProcessor.IMAGE_EXTENSIONS`. -/
def IMAGE_EXTENSIONS : List String := [".tif", ".tiff", ".jpg", ".jpeg", ".png"]

/-- `FileProcessor.validate_file`: suffix of the lower-cased
`item.get("name", "")` must be an allowed image extension. -/
def validate_file (it : Item) : Bool :=
  IMAGE_EXTENSIONS.contains (pySuffix (lowerStr (it.name.getD "")))

/-- `FileProcessor.extract_product_code`: split the stem on `"_"`,
require at least 3 parts, else raise
`ValueError("Filename must be PRODUCTCODE_TYPE_VERSION.ext")`. -/
def extract_product_code (filename : String) : Except String (String × String × String) :=
  let parts := pySplit '_' (pyStem filename)
  if parts.length < 3 then .error "Filename must be PRODUCTCODE_TYPE_VERSION.ext"
  else .ok (parts.getD 0 "", parts.getD 1 "", parts.getD 2 "")

/-- The in-memory ledger `self.processed` (a dict used as a set of
names); modelled by its key list. -/
abbrev Ledger := List String

/-- `FileProcessor.process_file`.  Returns the outcome (`.error` = the
call raised), the ledger after the call, and whether `upload_asset` was
invoked.  `update_product_association` is wrapped in `try ... except:
pass` in the source and has no effect on any modelled state;
`_save_processed` swallows its own errors and persists the same key
set, so the in-memory ledger is the modelled state. -/
def process_file (e : StepEnv) (l : Ledger) (it : Item) :
    Except String Outcome × Ledger × Bool :=
  if effName it ∈ l then (.ok (.skipped "already_processed" (effName it)), l, false)
  else if !validate_file it then (.ok (.skipped "invalid_extension" (effName it)), l, false)
  else
    match extract_product_code (effName it) with
    | .error m => (.error m, l, false)
    | .ok (productCode, _imageType, _version) =>
      match e.download with
      | .error m => (.error m, l, false)
      | .ok _ =>
        match e.upload with
        | .error m => (.error m, l, true)
        | .ok r =>
          (.ok (.success (pyOr r.id (pyOr r.assetId "")) productCode (effName it)),
            l ++ [effName it], true)

/-- Sequential trace of `process_file` invocations (one worker at a
time), threading the ledger; each entry records the outcome, whether
`upload_asset` was invoked, and the effective item name. -/
def runTrace (l : Ledger) : List (StepEnv × Item) → List (Except String Outcome × Bool × String)
  | [] => []
  | (e, it) :: rest =>
      ((process_file e l it).1, (process_file e l it).2.2, effName it)
        :: runTrace (process_file e l it).2.1 rest

/-- Number of trace entries for name `n` in which `upload_asset` was
invoked. -/
def countUploads (n : String) (tr : List (Except String Outcome × Bool × String)) : Nat :=
  (tr.filter (fun t => t.2.1 && t.2.2 == n)).length

/-! ## Ledger loading (`FileProcessor._load_processed`)

The possible observable states of the backing file together with the
behaviour of `Path.exists` / `Path.read_text` / `json.loads` on them. -/

/-- State of `processed_files_path` as seen by `_load_processed`. -/
inductive LedgerFile where
  /-- `exists()` is false. -/
  | absent
  /-- `read_text` raises. -/
  | unreadable
  /-- `read_text` returns `""`; `"" or "[]"` parses to the empty list. -/
  | empty
  /-- `json.loads` raises. -/
  | malformed
  /-- parses to a JSON value that is not a list. -/
  | jsonNonList
  /-- parses to a JSON list of the given (stringified) elements. -/
  | jsonList (xs : List String)
deriving Repr, DecidableEq

/-- Body of the `try` block of `_load_processed` (file_processor.py
lines 32-36), starting from `self.processed = {}`:
`.error` is a raised exception reaching the `except`. -/
def loadProcessedBody (f : LedgerFile) : Except String Ledger :=
  match f with
  | .absent => .ok []
  | .unreadable => .error "read_text raised"
  | .empty => .ok []
  | .malformed => .error "json.loads raised"
  | .jsonNonList => .ok []
  | .jsonList xs => .ok xs

/-- `FileProcessor._load_processed`: the surrounding
`try ... except Exception: self.processed = {}` makes the load total. -/
def load_processed (f : LedgerFile) : Ledger :=
  match loadProcessedBody f with
  | .ok xs => xs
  | .error _ => []

/-! ## Circuit breaker and poll loop (src/main.py, `run_daemon`) -/

/-- The breaker variables of `run_daemon`: `failure_count` (line 70) and
`circuit_open_until` (line 71). -/
structure BreakerState where
  failureCount : Nat
  openUntil : Int
deriving Repr, DecidableEq

/-- Initial breaker state: `failure_count = 0`, `circuit_open_until = 0.0`. -/
def breakerInit : BreakerState := ⟨0, 0⟩

/-- The poll guard of line 77, negated: polling happens unless
`failure_count >= circuit_threshold and now < circuit_open_until`. -/
def shouldPoll (th : Nat) (b : BreakerState) (now : Int) : Bool :=
  !(decide (th ≤ b.failureCount) && decide (now < b.openUntil))

/-- `failure_count += 1` (lines 115 and 127). -/
def recordFailure (b : BreakerState) : BreakerState :=
  { b with failureCount := b.failureCount + 1 }

/-- `failure_count = 0` on a success result (line 101). -/
def recordSuccess (b : BreakerState) : BreakerState :=
  { b with failureCount := 0 }

/-- Lines 129-130: after the tick body, if `failure_count >=
circuit_threshold` then `circuit_open_until = time.time() +
circuit_reset_seconds`. -/
def refreshOpen (th : Nat) (reset now : Int) (b : BreakerState) : BreakerState :=
  if th ≤ b.failureCount then { b with openUntil := now + reset } else b

/-- One within-tick failure recording followed by the end-of-tick
window refresh at time `t` (the shape of one all-failure tick). -/
def failTick (th : Nat) (reset t : Int) (b : BreakerState) : BreakerState :=
  refreshOpen th reset t (recordFailure b)

/-- Loop-level state: the breaker plus the dead-letter file, modelled
as the list of appended error strings (each appended record is one JSON
line `{"error": str(ex), "time": ...}`; only the error text is
modelled). -/
structure LoopState where
  breaker : BreakerState
  deadLetters : List String
deriving Repr, DecidableEq

/-- The per-item fan-in step of lines 94-115: a returned dict with
`status == "success"` resets `failure_count`; any other returned dict
is only logged; a raised exception increments `failure_count` and
appends one dead-letter record with the error text (the record does not
carry the item name). -/
def fanInStep (s : LoopState) (r : Except String Outcome) : LoopState :=
  match r with
  | .ok (.success _ _ _) => { s with breaker := recordSuccess s.breaker }
  | .ok (.skipped _ _) => s
  | .error msg =>
      { breaker := recordFailure s.breaker, deadLetters := s.deadLetters ++ [msg] }

/-- What a tick's `try` body amounts to after discovery: either the
discovery/list call raised, or it produced a batch whose per-item
results arrive at the fan-in in some completion order. -/
inductive TickEvent where
  | discoveryError (msg : String)
  | items (rs : List (Except String Outcome))
deriving Repr, DecidableEq

/-- One iteration of the `while` loop of `run_daemon` (lines 74-133).
`now` is the `time.time()` of line 76 and `endNow` the `time.time()` of
line 130.  When the breaker guard holds, the `continue` of line 81
skips the rest of the body — including the window refresh.  A discovery
error is caught by the outer `except` (lines 117-127): one
`failure_count` increment and one dead-letter record for the whole
iteration. -/
def tick (th : Nat) (reset : Int) (now endNow : Int) (ev : TickEvent) (s : LoopState) :
    LoopState :=
  if th ≤ s.breaker.failureCount ∧ now < s.breaker.openUntil then s
  else
    let s1 : LoopState :=
      match ev with
      | .discoveryError msg =>
          { breaker := recordFailure s.breaker, deadLetters := s.deadLetters ++ [msg] }
      | .items rs => rs.foldl fanInStep s
    { s1 with breaker := refreshOpen th reset endNow s1.breaker }

/-- The loop itself: ticks are consumed one after another; no tick
terminates the loop (the body is total — the outer catch-all of lines
117-127 converts every tick-body exception into state). -/
def runTicks (th : Nat) (reset : Int) : List (Int × Int × TickEvent) → LoopState → LoopState
  | [], s => s
  | (now, endNow, ev) :: rest, s => runTicks th reset rest (tick th reset now endNow ev s)

/-! ## Token cache (src/auth/azure_auth.py) -/

/-- An MSAL token-acquisition result dict, restricted to the keys the
source reads: `access_token`, `error_description`, `expires_in`. -/
structure TokenResult where
  accessToken : Option String
  errorDescription : Option String
  expiresIn : Option Int
deriving Repr, DecidableEq

/-- The mutable fields of `AzureAuthenticator`: `_cached_token` and
`_token_expiry_epoch`. -/
structure AuthState where
  cachedToken : Option TokenResult
  tokenExpiryEpoch : Int
deriving Repr, DecidableEq

/-- The MSAL app as an environment: what `get_accounts` /
`acquire_token_silent` / `acquire_token_for_client` would return on
this call. -/
structure MsalApp where
  hasAccounts : Bool
  silentWithAccount : Option TokenResult
  silentNoAccount : Option TokenResult
  forClient : TokenResult
deriving Repr, DecidableEq

/-- Python `f"... {x}"` of an optional diagnostic: `None` prints as
`"None"`. -/
def pyOptStr (a : Option String) : String :=
  match a with
  | some s => s
  | none => "None"

/-- The token the refresh path ends up inspecting (lines 53-60), with
the number of acquisition calls made (silent counts as one call; a
falsy silent result adds the client-credentials call). -/
def effectiveResult (app : MsalApp) : TokenResult × Nat :=
  match (if app.hasAccounts then app.silentWithAccount else app.silentNoAccount) with
  | some r => (r, 1)
  | none => (app.forClient, 2)

/-- The refresh path of `get_access_token` (lines 52-69), entered when
there is no fresh cached token.  Returns the result (`.error` = raised
`RuntimeError`), the authenticator state after the call, and the number
of provider acquisition calls made. -/
def acquireFresh (app : MsalApp) (now : Int) (s : AuthState) :
    Except String String × AuthState × Nat :=
  let (result, calls) := effectiveResult app
  match result.accessToken with
  | none =>
      (.error ("Failed to acquire token from Azure AD: " ++ pyOptStr result.errorDescription),
        s, calls)
  | some tok =>
      let expiresIn := result.expiresIn.getD 3000
      (.ok tok, { cachedToken := some result, tokenExpiryEpoch := now + expiresIn }, calls)

/-- `AzureAuthenticator.get_access_token` (body under the lock).
Line 46-50: a truthy cached token with
`now < expiry - margin` is returned with no provider call. -/
def get_access_token (margin : Int) (app : MsalApp) (now : Int) (s : AuthState) :
    Except String String × AuthState × Nat :=
  match s.cachedToken with
  | some tok =>
      if now < s.tokenExpiryEpoch - margin then (.ok (tok.accessToken.getD ""), s, 0)
      else acquireFresh app now s
  | none => acquireFresh app now s

/-! ## Unsynchronized concurrent ledger access (C9 model)

`FileProcessor` contains no lock of any kind; `process_file` runs on
the `ThreadPoolExecutor`'s workers, so two workers handling the same
name interleave the atomic actions of lines 64 (membership check), 73
(upload) and 82 (ledger add) freely on the shared `self.processed`. -/

/-- Program counter of one worker running `process_file` on a valid,
not-yet-processed name: `0` = about to run the membership check, `1` =
passed the check, about to upload, `2` = uploaded, about to add to the
ledger, `3` = finished with a success dict, `4` = finished with the
`already_processed` skip dict. -/
structure ConcState where
  ledger : Ledger
  pc0 : Nat
  pc1 : Nat
  uploads : Nat
deriving Repr, DecidableEq

/-- One atomic step of worker `0` (`w = false`) or worker `1`
(`w = true`), both processing an item named `n`. -/
def wStep (n : String) (s : ConcState) (w : Bool) : ConcState :=
  let pc := if w then s.pc1 else s.pc0
  let set := fun (s' : ConcState) (pc' : Nat) =>
    if w then { s' with pc1 := pc' } else { s' with pc0 := pc' }
  match pc with
  | 0 => if n ∈ s.ledger then set s 4 else set s 1
  | 1 => set { s with uploads := s.uploads + 1 } 2
  | 2 => set { s with ledger := s.ledger ++ [n] } 3
  | _ => s

/-- Run a schedule (list of worker choices) from a state. -/
def runSched (n : String) (sched : List Bool) (s : ConcState) : ConcState :=
  sched.foldl (wStep n) s

/-! ## Helper lemmas about `process_file` -/

/-- Exhaustive description of the branches of `process_file`: the
already-processed skip, the extension skip, a pre-upload raise, a raise
at/after the upload, or the success path (which alone extends the
ledger). -/
lemma process_file_cases (e : StepEnv) (l : Ledger) (it : Item) :
    process_file e l it = (.ok (.skipped "already_processed" (effName it)), l, false) ∨
    process_file e l it = (.ok (.skipped "invalid_extension" (effName it)), l, false) ∨
    (∃ msg, process_file e l it = (.error msg, l, false)) ∨
    (∃ msg, process_file e l it = (.error msg, l, true)) ∨
    (∃ (r : UploadResult) (pc ty ver : String),
        extract_product_code (effName it) = .ok (pc, ty, ver) ∧
        process_file e l it
          = (.ok (.success (pyOr r.id (pyOr r.assetId "")) pc (effName it)),
              l ++ [effName it], true)) := by
  by_cases h1 : effName it ∈ l
  · left
    simp [process_file, h1]
  · by_cases h2 : validate_file it = true
    · cases h3 : extract_product_code (effName it) with
      | error m =>
          right; right; left
          exact ⟨m, by simp [process_file, h1, h2, h3]⟩
      | ok tri =>
          obtain ⟨pc, ty, ver⟩ := tri
          cases h4 : e.download with
          | error m =>
              right; right; left
              exact ⟨m, by simp [process_file, h1, h2, h3, h4]⟩
          | ok u =>
              cases h5 : e.upload with
              | error m =>
                  right; right; right; left
                  exact ⟨m, by simp [process_file, h1, h2, h3, h4, h5]⟩
              | ok r =>
                  right; right; right; right
                  exact ⟨r, pc, ty, ver, rfl, by simp [process_file, h1, h2, h3, h4, h5]⟩
    · have h2f : validate_file it = false := by simpa using h2
      right; left
      simp [process_file, h1, h2f]

/-- A name already in the ledger short-circuits `process_file` at step 1. -/
lemma process_file_mem_skip (e : StepEnv) (l : Ledger) (it : Item) (h : effName it ∈ l) :
    process_file e l it = (.ok (.skipped "already_processed" (effName it)), l, false) := by
  unfold process_file
  rw [if_pos h]

/-- The ledger only grows across a `process_file` call. -/
lemma process_file_ledger_mono (e : StepEnv) (l : Ledger) (it : Item) (n : String)
    (h : n ∈ l) : n ∈ (process_file e l it).2.1 := by
  rcases process_file_cases e l it with hc | hc | ⟨m, hc⟩ | ⟨m, hc⟩ | ⟨r, pc, ty, ver, _, hc⟩ <;>
      rw [hc]
  · exact h
  · exact h
  · exact h
  · exact h
  · exact List.mem_append_left _ h

/-- A raising `process_file` call leaves the ledger unchanged. -/
lemma process_file_error_ledger (e : StepEnv) (l : Ledger) (it : Item) (msg : String)
    (h : (process_file e l it).1 = .error msg) :
    (process_file e l it).2.1 = l := by
  rcases process_file_cases e l it with hc | hc | ⟨m, hc⟩ | ⟨m, hc⟩ | ⟨r, pc, ty, ver, _, hc⟩ <;>
      rw [hc] at h ⊢ <;> simp_all

/-- A success outcome carries the effective item name and commits
exactly that name to the ledger. -/
lemma process_file_success (e : StepEnv) (l : Ledger) (it : Item) (a p n : String)
    (h : (process_file e l it).1 = .ok (.success a p n)) :
    n = effName it ∧ (process_file e l it).2.1 = l ++ [effName it] := by
  rcases process_file_cases e l it with hc | hc | ⟨m, hc⟩ | ⟨m, hc⟩ | ⟨r, pc, ty, ver, _, hc⟩ <;>
      rw [hc] at h ⊢ <;> simp_all

/-- Once a name is in the ledger, every later processing of an item with
that name in a sequential run yields the `already_processed` skip and
invokes no upload. -/
lemma runTrace_skip_of_mem (n : String) (steps : List (StepEnv × Item)) :
    ∀ l : Ledger, n ∈ l →
      ∀ r ∈ runTrace l steps, r.2.2 = n →
        r = (.ok (.skipped "already_processed" n), false, n) := by
  induction steps with
  | nil =>
      intro l _ r hr
      simp [runTrace] at hr
  | cons step rest ih =>
      intro l hl r hr hname
      obtain ⟨e, it⟩ := step
      simp only [runTrace, List.mem_cons] at hr
      rcases hr with hr | hr
      · subst hr
        have hn : effName it = n := hname
        have hsk := process_file_mem_skip e l it (by rw [hn]; exact hl)
        rw [hsk]
        subst hn
        rfl
      · exact ih (process_file e l it).2.1 (process_file_ledger_mono e l it n hl) r hr hname

/-- Each within-tick failure recording increments `failureCount` by one
(the end-of-tick refresh never touches the count). -/
lemma failTick_failureCount (th : Nat) (reset t : Int) (b : BreakerState) :
    (failTick th reset t b).failureCount = b.failureCount + 1 := by
  unfold failTick refreshOpen recordFailure
  split <;> rfl

/-- `n` all-failure ticks from the initial breaker state count `n`
consecutive failures. -/
lemma failTick_iterate_count (th : Nat) (reset t : Int) (n : Nat) :
    ((failTick th reset t)^[n] breakerInit).failureCount = n := by
  induction n with
  | zero => rfl
  | succ k ih => rw [Function.iterate_succ_apply', failTick_failureCount, ih]

/-! ## Claim theorems -/

/-- C1 counterexample: a trial tick that records no failure DOES extend
`circuit_open_until`.  With threshold 5 and reset 60, a state with
`failure_count = 5` and `circuit_open_until = 10` at `now = 10` (the
cooldown has elapsed) performs the trial poll; the tick lists zero
items, so no failure is recorded (`failureCount` stays 5, no dead
letter is appended), yet lines 129-130 refresh the window to
`endNow + reset = 71 ≠ 10`. -/
theorem C1_trial_no_failure_still_extends_cex :
    tick 5 60 10 11 (.items []) ⟨⟨5, 10⟩, []⟩ = ⟨⟨5, 71⟩, []⟩ ∧ (71 : Int) ≠ 10 :=
  ⟨by decide, by decide⟩

/-- C1 (amended): after the cooldown elapses (`openUntil ≤ now`) the
loop performs one trial poll; at the end of that tick the breaker
re-opens with a fresh cooldown (`openUntil = endNow + reset`) whenever
the failure count is still at or above the threshold — in particular
even when the trial records no failure (zero items) — while a trial
whose fan-in ends with a success clears `failure_count` to zero and
leaves `openUntil` unchanged; a discovery failure during the trial
re-opens with a fresh cooldown and one dead letter. -/
theorem C1_trial_poll_window_refresh (th : Nat) (reset now endNow : Int) (s : LoopState)
    (a p n : String)
    (hth : 0 < th) (hcool : s.breaker.openUntil ≤ now) (hfc : th ≤ s.breaker.failureCount) :
    tick th reset now endNow (.items []) s
        = ⟨⟨s.breaker.failureCount, endNow + reset⟩, s.deadLetters⟩ ∧
    tick th reset now endNow (.items [.ok (.success a p n)]) s
        = ⟨⟨0, s.breaker.openUntil⟩, s.deadLetters⟩ ∧
    tick th reset now endNow (.discoveryError n) s
        = ⟨⟨s.breaker.failureCount + 1, endNow + reset⟩, s.deadLetters ++ [n]⟩ := by
  have hg : ¬(th ≤ s.breaker.failureCount ∧ now < s.breaker.openUntil) :=
    fun h => absurd h.2 (not_lt.mpr hcool)
  refine ⟨?_, ?_, ?_⟩
  · simp only [tick, if_neg hg, List.foldl_nil, refreshOpen]
    rw [if_pos hfc]
  · simp only [tick, if_neg hg, List.foldl_cons, List.foldl_nil, fanInStep,
      recordSuccess, refreshOpen]
    rw [if_neg (by omega)]
  · simp only [tick, if_neg hg, recordFailure, refreshOpen]
    rw [if_pos (by omega)]

/-- C1 witness: the amended behaviour at threshold 5, reset 60, a state
with 5 failures whose cooldown expired at 10, observed at `now = 10`
with end-of-tick time 11. -/
theorem C1_trial_poll_window_refresh_witness :
    tick 5 60 10 11 (.items [.ok (.success "a" "p" "f.jpg")]) ⟨⟨5, 10⟩, ["e"]⟩
        = ⟨⟨0, 10⟩, ["e"]⟩ ∧
    tick 5 60 10 11 (.discoveryError "f.jpg") ⟨⟨5, 10⟩, ["e"]⟩
        = ⟨⟨6, 71⟩, ["e", "f.jpg"]⟩ :=
  ⟨(C1_trial_poll_window_refresh 5 60 10 11 ⟨⟨5, 10⟩, ["e"]⟩ "a" "p" "f.jpg"
      (by decide) (by decide) (by decide)).2.1,
   (C1_trial_poll_window_refresh 5 60 10 11 ⟨⟨5, 10⟩, ["e"]⟩ "a" "p" "f.jpg"
      (by decide) (by decide) (by decide)).2.2⟩

/-- C2 counterexample: when `upload_asset` raises (here `"boom"`) on a
valid, unprocessed item, `process_file` does not return any outcome —
the exception propagates out of the pipeline (`.error "boom"`), the
ledger is unchanged and the upload was invoked.  The claim's returned
`Failed{error, name}` value does not exist in the source: `Outcome`
(the type of dicts `process_file` returns) has only success and skipped
forms. -/
theorem C2_upload_error_raises_cex :
    process_file ⟨.ok (), .error "boom"⟩ [] ⟨"1", some "AB_FRONT_01.jpg"⟩
      = (.error "boom", [], true) := by decide

/-- C2 (amended): any unexpected error in steps 4-6 propagates out of
`process_file` as a raised exception (leaving the ledger uncommitted);
the fan-in in `run_daemon` catches it per item around `f.result()`,
increments the failure count and appends exactly one dead-letter record
carrying the error text (not the item name), so per-item errors never
escape the tick's fan-in loop. -/
theorem C2_pipeline_error_caught_at_fan_in (e : StepEnv) (l : Ledger) (it : Item)
    (msg : String) (s : LoopState)
    (h : (process_file e l it).1 = .error msg) :
    (process_file e l it).2.1 = l ∧
    fanInStep s (.error msg)
      = ⟨⟨s.breaker.failureCount + 1, s.breaker.openUntil⟩, s.deadLetters ++ [msg]⟩ :=
  ⟨process_file_error_ledger e l it msg h, rfl⟩

/-- C2 witness: the amended behaviour at the concrete failing upload of
the counterexample, fanned in from a clean loop state. -/
theorem C2_pipeline_error_caught_at_fan_in_witness :
    (process_file ⟨.ok (), .error "boom"⟩ [] ⟨"1", some "AB_FRONT_01.jpg"⟩).2.1 = [] ∧
    fanInStep ⟨⟨0, 0⟩, []⟩ (.error "boom") = ⟨⟨1, 0⟩, ["boom"]⟩ :=
  C2_pipeline_error_caught_at_fan_in ⟨.ok (), .error "boom"⟩ []
    ⟨"1", some "AB_FRONT_01.jpg"⟩ "boom" ⟨⟨0, 0⟩, []⟩ (by decide)

/-- C3: a cached credential whose expiry is more than `refreshMargin`
seconds after `now` is returned as-is: the cached token value comes
back, the cache state is untouched and zero provider acquisition calls
are made. -/
theorem C3_fresh_cache_hit_no_provider_call (margin : Int) (app : MsalApp) (now : Int)
    (s : AuthState) (tok : TokenResult) (v : String)
    (hc : s.cachedToken = some tok) (hv : tok.accessToken = some v)
    (hfresh : now < s.tokenExpiryEpoch - margin) :
    get_access_token margin app now s = (.ok v, s, 0) := by
  unfold get_access_token
  rw [hc]
  simp [hfresh, hv]

/-- C3 witness: margin 60, cached token `"C"` expiring at 1000, read at
`now = 100`. -/
theorem C3_fresh_cache_hit_no_provider_call_witness :
    get_access_token 60 ⟨false, none, none, ⟨some "T", none, some 3600⟩⟩ 100
        ⟨some ⟨some "C", none, none⟩, 1000⟩
      = (.ok "C", ⟨some ⟨some "C", none, none⟩, 1000⟩, 0) :=
  C3_fresh_cache_hit_no_provider_call 60 ⟨false, none, none, ⟨some "T", none, some 3600⟩⟩
    100 ⟨some ⟨some "C", none, none⟩, 1000⟩ ⟨some "C", none, none⟩ "C" rfl rfl (by decide)

/-- C4: on the refresh path, if the provider result carries no
`access_token`, `get_access_token` raises `RuntimeError` carrying the
provider's `error_description`, and the cache state is returned exactly
as it was: the failing result is not stored and the expiry is not
updated. -/
theorem C4_no_token_error_cache_unchanged (margin : Int) (app : MsalApp) (now : Int)
    (s : AuthState)
    (hmiss : s.cachedToken = none ∨ s.tokenExpiryEpoch - margin ≤ now)
    (hno : (effectiveResult app).1.accessToken = none) :
    get_access_token margin app now s =
      (.error ("Failed to acquire token from Azure AD: "
          ++ pyOptStr (effectiveResult app).1.errorDescription),
        s, (effectiveResult app).2) := by
  have hfresh : acquireFresh app now s =
      (.error ("Failed to acquire token from Azure AD: "
          ++ pyOptStr (effectiveResult app).1.errorDescription),
        s, (effectiveResult app).2) := by
    unfold acquireFresh
    rcases he : effectiveResult app with ⟨r, calls⟩
    rw [he] at hno
    simp only at hno
    simp [hno]
  rcases hc : s.cachedToken with _ | tok
  · unfold get_access_token
    rw [hc]
    exact hfresh
  · rcases hmiss with hm | hm
    · rw [hc] at hm; cases hm
    · unfold get_access_token
      rw [hc]
      show (if now < s.tokenExpiryEpoch - margin then
          ((Except.ok (tok.accessToken.getD "") : Except String String), s, 0)
        else acquireFresh app now s) = _
      rw [if_neg (not_lt.mpr hm)]
      exact hfresh

/-- C4 witness: empty cache, the silent call answers a dict with no
`access_token` and diagnostic `"diag"`: the call errors with the
diagnostic, the state `⟨none, 0⟩` comes back unchanged, one provider
call was made. -/
theorem C4_no_token_error_cache_unchanged_witness :
    get_access_token 60 ⟨false, none, some ⟨none, some "diag", none⟩, ⟨some "T", none, none⟩⟩
        100 ⟨none, 0⟩
      = (.error "Failed to acquire token from Azure AD: diag", ⟨none, 0⟩, 1) :=
  C4_no_token_error_cache_unchanged 60
    ⟨false, none, some ⟨none, some "diag", none⟩, ⟨some "T", none, none⟩⟩ 100 ⟨none, 0⟩
    (Or.inl rfl) rfl

/-- C5: starting from `failure_count = 0`, after exactly `th` ticks
each recording one failure (the last at time `t`), the breaker holds
`failureCount = th` and `openUntil = t + reset`; `shouldPoll now` is
false for every `now` strictly before `openUntil` and true once
`now ≥ openUntil`; and one success recording at any state resets
`failureCount` to 0, making `shouldPoll` true again. -/
theorem C5_threshold_opens_success_resets (th : Nat) (reset t now : Int) (hth : 0 < th) :
    ((failTick th reset t)^[th] breakerInit).failureCount = th ∧
    ((failTick th reset t)^[th] breakerInit).openUntil = t + reset ∧
    (now < t + reset → shouldPoll th ((failTick th reset t)^[th] breakerInit) now = false) ∧
    (t + reset ≤ now → shouldPoll th ((failTick th reset t)^[th] breakerInit) now = true) ∧
    (∀ b : BreakerState, shouldPoll th (recordSuccess b) now = true) := by
  obtain ⟨k, rfl⟩ : ∃ k, th = k + 1 := ⟨th - 1, (Nat.succ_pred_eq_of_pos hth).symm⟩
  have hb : ((failTick (k + 1) reset t)^[k + 1] breakerInit) = ⟨k + 1, t + reset⟩ := by
    rw [Function.iterate_succ_apply']
    generalize hB : (failTick (k + 1) reset t)^[k] breakerInit = B
    have hc : B.failureCount = k := by rw [← hB]; exact failTick_iterate_count (k + 1) reset t k
    unfold failTick refreshOpen recordFailure
    rw [if_pos (by simp [hc])]
    simp [hc]
  refine ⟨by rw [hb], by rw [hb], ?_, ?_, ?_⟩
  · intro h
    rw [hb]
    simp [shouldPoll, h]
  · intro h
    rw [hb]
    simp [shouldPoll, not_lt.mpr h]
  · intro b
    simp [shouldPoll, recordSuccess, Nat.not_succ_le_zero]

/-- C5 witness: threshold 5, reset 60, last failure at 100: polling is
suppressed at 159 and allowed at 160, and a success recording reopens
polling from an arbitrary state. -/
theorem C5_threshold_opens_success_resets_witness :
    ((failTick 5 60 100)^[5] breakerInit).failureCount = 5 ∧
    shouldPoll 5 ((failTick 5 60 100)^[5] breakerInit) 159 = false ∧
    shouldPoll 5 ((failTick 5 60 100)^[5] breakerInit) 160 = true ∧
    shouldPoll 5 (recordSuccess ⟨7, 999⟩) 159 = true :=
  ⟨(C5_threshold_opens_success_resets 5 60 100 159 (by decide)).1,
   (C5_threshold_opens_success_resets 5 60 100 159 (by decide)).2.2.1 (by decide),
   (C5_threshold_opens_success_resets 5 60 100 160 (by decide)).2.2.2.1 (by decide),
   (C5_threshold_opens_success_resets 5 60 100 159 (by decide)).2.2.2.2 ⟨7, 999⟩⟩

/-- C6 counterexample: `"bad.jpg"` does not yield any returned outcome
from `process_file` — the `ValueError` raised by
`extract_product_code` propagates out of the pipeline (`.error` with
the descriptive message), with the ledger unchanged and no upload. -/
theorem C6_bad_filename_raises_cex :
    process_file ⟨.ok (), .ok ⟨some "x", none⟩⟩ [] ⟨"7", some "bad.jpg"⟩
      = (.error "Filename must be PRODUCTCODE_TYPE_VERSION.ext", [], false) := by decide

/-- C6 (amended): `"ABC123_FRONT_01.jpg"` decomposes to
`(productCode = "ABC123", type = "FRONT", version = "01")`; a stem with
fewer than 3 underscore-separated parts makes `extract_product_code`
raise `ValueError("Filename must be PRODUCTCODE_TYPE_VERSION.ext")`,
which propagates out of `process_file` (no ledger commit, no upload);
the daemon's per-item fan-in handler then records the descriptive error
as a dead letter, so the item is neither silently skipped nor does it
crash the loop. -/
theorem C6_decomposition_and_short_stem (e : StepEnv) (l : Ledger) (it : Item)
    (m : String) (s : LoopState)
    (h1 : effName it ∉ l) (h2 : validate_file it = true)
    (h3 : extract_product_code (effName it) = .error m) :
    extract_product_code "ABC123_FRONT_01.jpg" = .ok ("ABC123", "FRONT", "01") ∧
    (∀ fname : String, (pySplit '_' (pyStem fname)).length < 3 →
        extract_product_code fname = .error "Filename must be PRODUCTCODE_TYPE_VERSION.ext") ∧
    process_file e l it = (.error m, l, false) ∧
    (fanInStep s (.error m)).deadLetters = s.deadLetters ++ [m] := by
  refine ⟨by decide, ?_, ?_, rfl⟩
  · intro fname hlen
    unfold extract_product_code
    rw [if_pos hlen]
  · unfold process_file
    rw [if_neg h1, h2]
    simp [h3]

/-- C6 witness: the amended behaviour at the concrete item
`"bad.jpg"`. -/
theorem C6_decomposition_and_short_stem_witness :
    extract_product_code "ABC123_FRONT_01.jpg" = .ok ("ABC123", "FRONT", "01") ∧
    process_file ⟨.ok (), .ok ⟨some "x", none⟩⟩ [] ⟨"7", some "bad.jpg"⟩
      = (.error "Filename must be PRODUCTCODE_TYPE_VERSION.ext", [], false) :=
  ⟨(C6_decomposition_and_short_stem ⟨.ok (), .ok ⟨some "x", none⟩⟩ [] ⟨"7", some "bad.jpg"⟩
      "Filename must be PRODUCTCODE_TYPE_VERSION.ext" ⟨⟨0, 0⟩, []⟩
      (by decide) (by decide) (by decide)).1,
   (C6_decomposition_and_short_stem ⟨.ok (), .ok ⟨some "x", none⟩⟩ [] ⟨"7", some "bad.jpg"⟩
      "Filename must be PRODUCTCODE_TYPE_VERSION.ext" ⟨⟨0, 0⟩, []⟩
      (by decide) (by decide) (by decide)).2.2.1⟩

/-- C7 counterexample: "upload invoked at most once in total for a name
that once succeeded" fails.  Processing `"A_B_C.jpg"` twice from an
empty ledger where the first upload raises (`"boom"`, so no ledger
commit) and the second succeeds produces one returned Success for the
name while `upload_asset` was invoked twice in total. -/
theorem C7_upload_twice_before_success_cex :
    runTrace [] [(⟨.ok (), .error "boom"⟩, ⟨"1", some "A_B_C.jpg"⟩),
                 (⟨.ok (), .ok ⟨some "asset1", none⟩⟩, ⟨"1", some "A_B_C.jpg"⟩)]
      = [(.error "boom", true, "A_B_C.jpg"),
         (.ok (.success "asset1" "A" "A_B_C.jpg"), true, "A_B_C.jpg")] ∧
    countUploads "A_B_C.jpg"
      (runTrace [] [(⟨.ok (), .error "boom"⟩, ⟨"1", some "A_B_C.jpg"⟩),
                    (⟨.ok (), .ok ⟨some "asset1", none⟩⟩, ⟨"1", some "A_B_C.jpg"⟩)]) = 2 :=
  ⟨by decide, by decide⟩

/-- C7 (amended): once `process_file` returns Success for a name, that
name is committed to the ledger, and in any subsequent sequential
processing every item with the same name yields
`Skipped{already_processed}` with no upload invocation — so
`upload_asset` is never invoked again for the name after its first
Success (extra invocations can arise only from earlier attempts whose
upload raised before any Success). -/
theorem C7_after_success_always_skipped (e : StepEnv) (l : Ledger) (it : Item)
    (a p n : String)
    (hsucc : (process_file e l it).1 = .ok (.success a p n)) :
    n = effName it ∧
    ∀ (steps : List (StepEnv × Item)) (r : Except String Outcome × Bool × String),
      r ∈ runTrace (process_file e l it).2.1 steps → r.2.2 = n →
        r = (.ok (.skipped "already_processed" n), false, n) := by
  obtain ⟨hn, hl⟩ := process_file_success e l it a p n hsucc
  refine ⟨hn, fun steps r hr hname => ?_⟩
  refine runTrace_skip_of_mem n steps (process_file e l it).2.1 ?_ r hr hname
  rw [hl, hn]
  exact List.mem_append_right _ (by simp)

/-- C7 witness: after the successful processing of `"A_B_C.jpg"`, a
re-processing of the same item in the next run is the
`already_processed` skip with no upload. -/
theorem C7_after_success_always_skipped_witness :
    "A_B_C.jpg" = effName ⟨"1", some "A_B_C.jpg"⟩ ∧
    (runTrace (process_file ⟨.ok (), .ok ⟨some "asset1", none⟩⟩ [] ⟨"1", some "A_B_C.jpg"⟩).2.1
        [(⟨.ok (), .ok ⟨some "asset2", none⟩⟩, ⟨"2", some "A_B_C.jpg"⟩)]).getD 0
        (.error "", false, "")
      = (.ok (.skipped "already_processed" "A_B_C.jpg"), false, "A_B_C.jpg") :=
  ⟨(C7_after_success_always_skipped ⟨.ok (), .ok ⟨some "asset1", none⟩⟩ []
      ⟨"1", some "A_B_C.jpg"⟩ "asset1" "A" "A_B_C.jpg" (by decide)).1,
   (C7_after_success_always_skipped ⟨.ok (), .ok ⟨some "asset1", none⟩⟩ []
      ⟨"1", some "A_B_C.jpg"⟩ "asset1" "A" "A_B_C.jpg" (by decide)).2
      [(⟨.ok (), .ok ⟨some "asset2", none⟩⟩, ⟨"2", some "A_B_C.jpg"⟩)] _ (by decide) (by decide)⟩

/-- C8: a tick whose discovery/list call raises, entered with the
breaker allowing the poll, increments the breaker's failure count by
exactly one, appends exactly one dead-letter record for the iteration,
and the loop proceeds to the remaining ticks (the tick body is total:
the outer catch-all converts the raise into state). -/
theorem C8_discovery_error_one_failure (th : Nat) (reset : Int) (now endNow : Int)
    (s : LoopState) (msg : String)
    (hpoll : shouldPoll th s.breaker now = true) :
    (tick th reset now endNow (.discoveryError msg) s).breaker.failureCount
        = s.breaker.failureCount + 1 ∧
    (tick th reset now endNow (.discoveryError msg) s).deadLetters = s.deadLetters ++ [msg] ∧
    (∀ rest, runTicks th reset ((now, endNow, .discoveryError msg) :: rest) s
        = runTicks th reset rest (tick th reset now endNow (.discoveryError msg) s)) := by
  have hg : ¬(th ≤ s.breaker.failureCount ∧ now < s.breaker.openUntil) := by
    intro h
    simp [shouldPoll, h.1, h.2] at hpoll
  refine ⟨?_, ?_, fun rest => rfl⟩
  · simp only [tick, if_neg hg, recordFailure, refreshOpen]
    split <;> rfl
  · simp only [tick, if_neg hg, recordFailure, refreshOpen]

/-- C8 witness: a discovery failure on the first tick of a clean loop:
the failure count becomes 1, the dead-letter file gains one record, and
the loop goes on to the rest of the schedule. -/
theorem C8_discovery_error_one_failure_witness :
    (tick 5 60 0 1 (.discoveryError "cannot resolve folder") ⟨⟨0, 0⟩, []⟩).breaker.failureCount
        = 1 ∧
    (tick 5 60 0 1 (.discoveryError "cannot resolve folder") ⟨⟨0, 0⟩, []⟩).deadLetters
        = ["cannot resolve folder"] ∧
    runTicks 5 60 [(0, 1, .discoveryError "cannot resolve folder")] ⟨⟨0, 0⟩, []⟩
        = tick 5 60 0 1 (.discoveryError "cannot resolve folder") ⟨⟨0, 0⟩, []⟩ :=
  ⟨(C8_discovery_error_one_failure 5 60 0 1 ⟨⟨0, 0⟩, []⟩ "cannot resolve folder" (by decide)).1,
   (C8_discovery_error_one_failure 5 60 0 1 ⟨⟨0, 0⟩, []⟩ "cannot resolve folder" (by decide)).2.1,
   (C8_discovery_error_one_failure 5 60 0 1 ⟨⟨0, 0⟩, []⟩ "cannot resolve folder"
      (by decide)).2.2 []⟩

/-- C9: `FileProcessor` holds no lock, so the membership check of
step 1 and the ledger add of step 6 interleave freely between two
workers given the same name in one batch.  The schedule
check₀-check₁-upload₀-add₀-upload₁-add₁ lets both workers pass the
`already_processed` check (neither ends in the skip state `4`; both end
in the success state `3`) and both invoke `upload_asset`: the claimed
lock-protected atomicity does not hold in the code. -/
theorem C9_unsynchronized_double_upload :
    runSched "AB_C_1.jpg" [false, true, false, false, true, true] ⟨[], 0, 0, 0⟩
      = ⟨["AB_C_1.jpg", "AB_C_1.jpg"], 3, 3, 2⟩ := by decide

/-- C10: loading the persisted ledger never raises — `_load_processed`
is total over every state of the backing file — and every file state
other than a parsed JSON list (absent, unreadable, empty, malformed
JSON, JSON non-list) yields an empty in-memory ledger, while a JSON
list yields exactly the listed names. -/
theorem C10_ledger_load_never_fails :
    (∀ f : LedgerFile, (∀ xs : List String, f ≠ .jsonList xs) → load_processed f = []) ∧
    (∀ (xs : List String) (n : String), n ∈ load_processed (.jsonList xs) ↔ n ∈ xs) := by
  constructor
  · intro f hf
    cases f with
    | jsonList xs => exact absurd rfl (hf xs)
    | _ => rfl
  · intro xs n
    exact Iff.rfl

/-- C10 witness: a malformed file loads as the empty ledger; a JSON
list `["a", "b"]` loads with exactly those names. -/
theorem C10_ledger_load_never_fails_witness :
    load_processed .malformed = [] ∧
    ("a" ∈ load_processed (.jsonList ["a", "b"]) ↔ "a" ∈ (["a", "b"] : List String)) :=
  ⟨C10_ledger_load_never_fails.1 .malformed (fun _ h => LedgerFile.noConfusion h),
   C10_ledger_load_never_fails.2 ["a", "b"] "a"⟩
